import Mathlib

/-!
Verification of the RustChain Proof-of-Antiquity core (crate `rips`).

This file is a shallow embedding, in Lean 4, of the parts of the repository
that the verified claims are about:

* `src/rips/src/core_types.rs` — hardware tiers, multipliers, wallet
  addresses, mining proofs, blocks;
* `src/rips/src/proof_of_antiquity.rs` — the block-window state machine
  (`submit_proof`, `process_block`, merkle root, hardware fingerprinting,
  the shallow anti-emulation verifier);
* `src/rips/src/deep_entropy.rs` — the five-layer deep entropy verifier.

Modelling conventions:

* Rust `u32`/`u64`/`usize` values are modelled as `Nat`; none of the
  operations involved can overflow on the values that occur (rewards are
  bounded by 100 000 000 and there are at most 100 miners per block).
* Rust `f64` values (multipliers, entropy scores, thresholds) are modelled
  as exact rationals `ℚ`.  All constants appearing in the source (0.1, 0.2,
  3.5, 0.15, 0.65, ...) are dyadic or decimal rationals that `f64`
  represents the same way the arithmetic comparisons of the source use
  them; reward truncation `as u64` is modelled by `Int.toNat ∘ Int.floor`,
  which agrees with the saturating Rust float-to-int cast on the
  non-negative values that occur.
* `SHA-256` is embedded concretely (bytes as `Nat` below 256, words as
  `Nat` reduced mod 2^32), so hashes, hardware fingerprints and merkle
  roots compute inside Lean.
* `HashMap`s are modelled as association lists with first-match lookup;
  the engine only ever rebinds a key to the value it already has, so
  cons-insertion is observationally equal to `HashMap::insert`.
* The wall clock (`current_timestamp()`) is passed explicitly as a `now`
  argument, as the specification requires it to be injectable.
* Strings hashed by the source are ASCII, so UTF-8 encoding is modelled by
  `Char.toNat` per character.
-/

/- The Batteries rational arithmetic is marked irreducible, which blocks
the elaborator-side evaluation that `decide` performs on the concrete
scenarios below; restore the ordinary reducibility of the arithmetic so
that exact `f64`-as-`ℚ` computations evaluate. -/
set_option allowUnsafeReducibility true
attribute [semireducible] Rat.mul Rat.add Rat.sub Rat.div Rat.neg Rat.inv

deriving instance DecidableEq for Except

/-! ## Byte and word helpers, SHA-256 (sha2 crate as used by the source) -/

/-- Truncate to a 32-bit word. -/
def w32 (n : Nat) : Nat := n % 4294967296

/-- 32-bit right rotation. -/
def rotr (k n : Nat) : Nat := w32 ((n >>> k) ||| (n <<< (32 - k)))

def sha_s0 (x : Nat) : Nat := (rotr 7 x) ^^^ (rotr 18 x) ^^^ (x >>> 3)

def sha_s1 (x : Nat) : Nat := (rotr 17 x) ^^^ (rotr 19 x) ^^^ (x >>> 10)

def sha_bigS0 (x : Nat) : Nat := (rotr 2 x) ^^^ (rotr 13 x) ^^^ (rotr 22 x)

def sha_bigS1 (x : Nat) : Nat := (rotr 6 x) ^^^ (rotr 11 x) ^^^ (rotr 25 x)

def sha_ch (x y z : Nat) : Nat := (x &&& y) ^^^ ((x ^^^ 4294967295) &&& z)

def sha_maj (x y z : Nat) : Nat := (x &&& y) ^^^ (x &&& z) ^^^ (y &&& z)

/-- The eight initial SHA-256 state words. -/
def shaInit : List Nat :=
  [1779033703, 3144134277, 1013904242, 2773480762,
   1359893119, 2600822924, 528734635, 1541459225]

/-- The 64 SHA-256 round constants, written in decimal. -/
def kConst : List Nat :=
  [1116352408, 1899447441, 3049323471, 3921009573,
   961987163, 1508970993, 2453635748, 2870763221,
   3624381080, 310598401, 607225278, 1426881987,
   1925078388, 2162078206, 2614888103, 3248222580,
   3835390401, 4022224774, 264347078, 604807628,
   770255983, 1249150122, 1555081692, 1996064986,
   2554220882, 2821834349, 2952996808, 3210313671,
   3336571891, 3584528711, 113926993, 338241895,
   666307205, 773529912, 1294757372, 1396182291,
   1695183700, 1986661051, 2177026350, 2456956037,
   2730485921, 2820302411, 3259730800, 3345764771,
   3516065817, 3600352804, 4094571909, 275423344,
   430227734, 506948616, 659060556, 883997877,
   958139571, 1322822218, 1537002063, 1747873779,
   1955562222, 2024104815, 2227730452, 2361852424,
   2428436474, 2756734187, 3204031479, 3329325298]

/-- Big-endian 8-byte encoding of a length value. -/
def bigEndian8 (n : Nat) : List Nat :=
  [(n >>> 56) % 256, (n >>> 48) % 256, (n >>> 40) % 256, (n >>> 32) % 256,
   (n >>> 24) % 256, (n >>> 16) % 256, (n >>> 8) % 256, n % 256]

/-- Big-endian 4-byte encoding of a 32-bit word. -/
def bigEndian4 (n : Nat) : List Nat :=
  [(n >>> 24) % 256, (n >>> 16) % 256, (n >>> 8) % 256, n % 256]

/-- SHA-256 padding: append 0x80, zeros and the 64-bit bit length. -/
def sha256Pad (msg : List Nat) : List Nat :=
  let z := (120 - (msg.length + 1) % 64) % 64
  msg ++ [128] ++ List.replicate z 0 ++ bigEndian8 (8 * msg.length)

/-- Split a byte list into 64-byte chunks (fuel-structured recursion). -/
def chunksGo : Nat → List Nat → List (List Nat)
  | 0, _ => []
  | _, [] => []
  | fuel + 1, l => l.take 64 :: chunksGo fuel (l.drop 64)

def chunks64 (l : List Nat) : List (List Nat) := chunksGo l.length l

/-- Combine bytes into big-endian 32-bit words. -/
def bytesToWords : List Nat → List Nat
  | b0 :: b1 :: b2 :: b3 :: rest =>
      (((b0 * 256 + b1) * 256 + b2) * 256 + b3) :: bytesToWords rest
  | _ => []

/-- Message-schedule extension; `acc` holds the words most recent first. -/
def scheduleGo : Nat → List Nat → List Nat
  | 0, acc => acc
  | n + 1, acc =>
      let v := w32 (sha_s1 (acc.getD 1 0) + acc.getD 6 0 +
                    sha_s0 (acc.getD 14 0) + acc.getD 15 0)
      scheduleGo n (v :: acc)

/-- Extend 16 message words to the 64-word schedule. -/
def schedule (ws : List Nat) : List Nat := (scheduleGo 48 ws.reverse).reverse

/-- One SHA-256 compression round. -/
def compressRound (st : Nat × Nat × Nat × Nat × Nat × Nat × Nat × Nat)
    (kw : Nat × Nat) : Nat × Nat × Nat × Nat × Nat × Nat × Nat × Nat :=
  let (a, b, c, d, e, f, g, h) := st
  let t1 := w32 (h + sha_bigS1 e + sha_ch e f g + kw.1 + kw.2)
  let t2 := w32 (sha_bigS0 a + sha_maj a b c)
  (w32 (t1 + t2), a, b, c, w32 (d + t1), e, f, g)

/-- Process one 64-byte chunk, updating the eight state words. -/
def processChunk (hs : List Nat) (chunk : List Nat) : List Nat :=
  let ws := schedule (bytesToWords chunk)
  let init := (hs.getD 0 0, hs.getD 1 0, hs.getD 2 0, hs.getD 3 0,
               hs.getD 4 0, hs.getD 5 0, hs.getD 6 0, hs.getD 7 0)
  let fin := (kConst.zip ws).foldl compressRound init
  let (a, b, c, d, e, f, g, h) := fin
  [w32 (hs.getD 0 0 + a), w32 (hs.getD 1 0 + b), w32 (hs.getD 2 0 + c),
   w32 (hs.getD 3 0 + d), w32 (hs.getD 4 0 + e), w32 (hs.getD 5 0 + f),
   w32 (hs.getD 6 0 + g), w32 (hs.getD 7 0 + h)]

/-- SHA-256 of a byte list, as the 32-byte digest. -/
def sha256 (msg : List Nat) : List Nat :=
  let hs := (chunks64 (sha256Pad msg)).foldl processChunk shaInit
  (hs.map bigEndian4).flatten

/-- UTF-8 bytes of a string; all strings hashed by the source are ASCII,
for which UTF-8 coincides with the code points. -/
def strBytes (s : String) : List Nat := s.data.map (fun c => c.toNat)

/-- The lowercase hex digit of a value below 16 (0x30 is the code of the
zero digit, 0x57 + 10 the code of the letter a). -/
def hexDigit (n : Nat) : Char :=
  if n < 10 then Char.ofNat (48 + n) else Char.ofNat (87 + n)

/-- Lowercase hex encoding of a byte list (the hex crate `encode`). -/
def hexEncode (bytes : List Nat) : String :=
  String.mk ((bytes.map (fun b => [hexDigit (b / 16), hexDigit (b % 16)])).flatten)

/-! ## Core types (src/rips/src/core_types.rs) -/

/-- Hardware tiers based on age (`HardwareTier`). -/
inductive HardwareTier where
  | Ancient
  | Sacred
  | Vintage
  | Classic
  | Retro
  | Modern
  | Recent
deriving DecidableEq, Repr

/-- `HardwareTier::multiplier`: the fixed mining multiplier of a tier. -/
def HardwareTier.multiplier : HardwareTier → ℚ
  | .Ancient => 7/2
  | .Sacred => 3
  | .Vintage => 5/2
  | .Classic => 2
  | .Retro => 3/2
  | .Modern => 1
  | .Recent => 1/2

/-- `HardwareTier::from_age`: tier from hardware age in years.  The Rust
match on ranges `30..`, `25..=29`, ... is rendered as a guard chain. -/
def HardwareTier.from_age (years : Nat) : HardwareTier :=
  if 30 ≤ years then .Ancient
  else if 25 ≤ years then .Sacred
  else if 20 ≤ years then .Vintage
  else if 15 ≤ years then .Classic
  else if 10 ≤ years then .Retro
  else if 5 ≤ years then .Modern
  else .Recent

/-- `WalletAddress` is a newtype over `String`; only its string content is
ever compared or serialized by the engine. -/
abbrev WalletAddress := String

/-- `CacheSizes` (KB). -/
structure CacheSizes where
  l1_data : Nat
  l1_instruction : Nat
  l2 : Nat
  l3 : Option Nat
deriving DecidableEq, Repr

/-- `HardwareCharacteristics` for anti-emulation; the `HashMap<String,u64>`
of instruction timings is an association list. -/
structure HardwareCharacteristics where
  cpu_model : String
  cpu_family : Nat
  cpu_flags : List String
  cache_sizes : CacheSizes
  instruction_timings : List (String × Nat)
  unique_id : String
deriving DecidableEq, Repr

/-- `HardwareInfo`. -/
structure HardwareInfo where
  model : String
  generation : String
  age_years : Nat
  tier : HardwareTier
  multiplier : ℚ
  characteristics : Option HardwareCharacteristics
deriving DecidableEq, Repr

/-- `HardwareInfo::new`: automatic tier calculation from age. -/
def HardwareInfo.new (model generation : String) (age_years : Nat) :
    HardwareInfo :=
  let tier := HardwareTier.from_age age_years
  { model := model
    generation := generation
    age_years := age_years
    tier := tier
    multiplier := tier.multiplier
    characteristics := none }

/-- `MiningProof`. -/
structure MiningProof where
  wallet : WalletAddress
  hardware : HardwareInfo
  anti_emulation_hash : List Nat
  timestamp : Nat
  nonce : Nat
deriving DecidableEq, Repr

/-- `BlockMiner`: one miner entry in a sealed block. -/
structure BlockMiner where
  wallet : WalletAddress
  hardware : String
  multiplier : ℚ
  reward : Nat
deriving DecidableEq, Repr

/-- `Block`: the sealed output of `process_block`.  The `[u8; 32]` hash
fields are byte lists. -/
structure Block where
  height : Nat
  hash : List Nat
  previous_hash : List Nat
  timestamp : Nat
  miners : List BlockMiner
  total_reward : Nat
  merkle_root : List Nat
  state_root : List Nat
deriving DecidableEq, Repr

/-- `TokenAmount`: token amount in smallest units. -/
structure TokenAmount where
  val : Nat
deriving DecidableEq, Repr

/-! ## Proof of Antiquity engine (src/rips/src/proof_of_antiquity.rs) -/

/-- `BLOCK_REWARD`: 1 RTC per block, in smallest units. -/
def BLOCK_REWARD : TokenAmount := ⟨100000000⟩

/-- `MIN_MULTIPLIER_THRESHOLD` (= 0.1). -/
def MIN_MULTIPLIER_THRESHOLD : ℚ := 1/10

/-- `MAX_MINERS_PER_BLOCK`. -/
def MAX_MINERS_PER_BLOCK : Nat := 100

/-- `ValidatedProof`: an accepted proof pending block inclusion. -/
structure ValidatedProof where
  wallet : WalletAddress
  hardware : HardwareInfo
  multiplier : ℚ
  anti_emulation_hash : List Nat
  validated_at : Nat
deriving DecidableEq, Repr

/-- `TimingBaseline` of the shallow anti-emulation verifier. -/
structure TimingBaseline where
  instruction : String
  min_cycles : Nat
  max_cycles : Nat
deriving DecidableEq, Repr

/-- `CacheRanges` of a CPU signature. -/
structure CacheRanges where
  l1_min : Nat
  l1_max : Nat
  l2_min : Nat
  l2_max : Nat
deriving DecidableEq, Repr

/-- `CpuSignature`. -/
structure CpuSignature where
  family : Nat
  expected_flags : List String
  cache_ranges : CacheRanges
deriving DecidableEq, Repr

/-- `AntiEmulationVerifier`: the two lookup tables, as association lists. -/
structure AntiEmulationVerifier where
  cpu_signatures : List (Nat × CpuSignature)
  timing_baselines : List (String × TimingBaseline)
deriving DecidableEq, Repr

/-- First-match association-list lookup (models `HashMap::get`). -/
def assocLookup {κ α : Type} [BEq κ] : List (κ × α) → κ → Option α
  | [], _ => none
  | (k, v) :: rest, key => if k == key then some v else assocLookup rest key

/-- `AntiEmulationVerifier::new`, with the signature table that
`initialize_signatures` installs written inline (families 74, 4, 5, 6);
the timing-baseline table is left empty, exactly as in the source. -/
def AntiEmulationVerifier.new : AntiEmulationVerifier :=
  { cpu_signatures :=
      [(74, { family := 74
              expected_flags := ["altivec", "ppc"]
              cache_ranges := { l1_min := 32, l1_max := 64,
                                l2_min := 256, l2_max := 2048 } }),
       (4, { family := 4
             expected_flags := ["fpu"]
             cache_ranges := { l1_min := 8, l1_max := 16,
                               l2_min := 0, l2_max := 512 } }),
       (5, { family := 5
             expected_flags := ["fpu", "vme", "de"]
             cache_ranges := { l1_min := 16, l1_max := 32,
                               l2_min := 256, l2_max := 512 } }),
       (6, { family := 6
             expected_flags := ["fpu", "vme", "de", "pse"]
             cache_ranges := { l1_min := 16, l1_max := 32,
                               l2_min := 256, l2_max := 2048 } })]
    timing_baselines := [] }

/-- `ProofError`. -/
inductive ProofError where
  | BlockWindowClosed
  | DuplicateSubmission
  | BlockFull
  | InvalidMultiplier
  | TierMismatch
  | SuspiciousAge
  | HardwareAlreadyRegistered (w : WalletAddress)
  | SuspiciousHardware (msg : String)
  | EmulationDetected
  | InvalidSignature
deriving DecidableEq, Repr

/-- `AntiEmulationVerifier::verify`: cache-size and flag checks against the
family signature, then instruction timings against the baseline table. -/
def AntiEmulationVerifier.verify (v : AntiEmulationVerifier)
    (c : HardwareCharacteristics) : Except ProofError Unit :=
  let sigCheck : Except ProofError Unit :=
    match assocLookup v.cpu_signatures c.cpu_family with
    | some s =>
        if c.cache_sizes.l1_data < s.cache_ranges.l1_min ∨
           s.cache_ranges.l1_max < c.cache_sizes.l1_data then
          .error (.SuspiciousHardware ("L1 cache size mismatch"))
        else if ¬ (s.expected_flags.all (fun f => c.cpu_flags.contains f)) then
          .error (.SuspiciousHardware ("Missing expected CPU flags"))
        else .ok ()
    | none => .ok ()
  match sigCheck with
  | .error e => .error e
  | .ok _ =>
      if c.instruction_timings.any (fun it =>
          match assocLookup v.timing_baselines it.1 with
          | some b => decide (it.2 < b.min_cycles ∨ b.max_cycles < it.2)
          | none => false) then
        .error .EmulationDetected
      else .ok ()

/-- The engine state (`ProofOfAntiquity`).  `known_hardware` maps the
32-byte fingerprint to the owning wallet. -/
structure PoAState where
  pending_proofs : List ValidatedProof
  block_start_time : Nat
  known_hardware : List (List Nat × WalletAddress)
  anti_emulation : AntiEmulationVerifier
deriving DecidableEq, Repr

/-- `ProofOfAntiquity::new` with the start of the window injected. -/
def PoAState.new (now : Nat) : PoAState :=
  { pending_proofs := []
    block_start_time := now
    known_hardware := []
    anti_emulation := AntiEmulationVerifier.new }

/-- `SubmitResult`. -/
structure SubmitResult where
  accepted : Bool
  pending_miners : Nat
  your_multiplier : ℚ
  block_completes_in : Nat
deriving DecidableEq, Repr

/-- `ProofOfAntiquity::validate_hardware`: age, tier and multiplier
plausibility checks, in source order. -/
def validate_hardware (hardware : HardwareInfo) : Except ProofError Unit :=
  if 50 < hardware.age_years then .error .SuspiciousAge
  else if hardware.tier ≠ HardwareTier.from_age hardware.age_years then
    .error .TierMismatch
  else if hardware.multiplier < MIN_MULTIPLIER_THRESHOLD ∨
          (4 : ℚ) < hardware.multiplier then
    .error .InvalidMultiplier
  else .ok ()

/-- `ProofOfAntiquity::hash_hardware`: SHA-256 over
`model:generation:unique_id` (empty unique id when no characteristics). -/
def hash_hardware (hardware : HardwareInfo) : List Nat :=
  sha256 (strBytes (hardware.model ++ ":" ++ hardware.generation ++ ":" ++
    ((hardware.characteristics.map (fun c => c.unique_id)).getD "")))

/-- `ProofOfAntiquity::submit_proof`: the seven-stage check sequence of the
source, short-circuiting with the corresponding error. -/
def submit_proof (now : Nat) (st : PoAState) (proof : MiningProof) :
    Except ProofError (SubmitResult × PoAState) :=
  let elapsed := now - st.block_start_time
  if 120 ≤ elapsed then .error .BlockWindowClosed
  else if st.pending_proofs.any (fun p => p.wallet == proof.wallet) then
    .error .DuplicateSubmission
  else if MAX_MINERS_PER_BLOCK ≤ st.pending_proofs.length then
    .error .BlockFull
  else match validate_hardware proof.hardware with
  | .error e => .error e
  | .ok _ =>
    match (match proof.hardware.characteristics with
           | some chars => st.anti_emulation.verify chars
           | none => .ok ()) with
    | .error e => .error e
    | .ok _ =>
      let hw_hash := hash_hardware proof.hardware
      let hwConflict : Option WalletAddress :=
        match assocLookup st.known_hardware hw_hash with
        | some existing =>
            if existing == proof.wallet then none else some existing
        | none => none
      match hwConflict with
      | some w => .error (.HardwareAlreadyRegistered w)
      | none =>
        if (1/5 : ℚ) <
            |proof.hardware.multiplier - proof.hardware.tier.multiplier| then
          .error .InvalidMultiplier
        else
          let capped := min proof.hardware.multiplier (7/2 : ℚ)
          let validated : ValidatedProof :=
            { wallet := proof.wallet
              hardware := proof.hardware
              multiplier := capped
              anti_emulation_hash := proof.anti_emulation_hash
              validated_at := now }
          let newPending := st.pending_proofs ++ [validated]
          .ok ({ accepted := true
                 pending_miners := newPending.length
                 your_multiplier := capped
                 block_completes_in := 120 - elapsed },
               { st with pending_proofs := newPending
                         known_hardware :=
                           (hw_hash, proof.wallet) :: st.known_hardware })

/-- Decimal rendering of the dyadic rationals that stand for `f64`
multipliers, matching the Rust `Display` output of the values that occur
(integers print without a fractional part, halves print with `.5`). -/
def ratDisplay (q : ℚ) : String :=
  if q.den = 1 then toString q.num
  else if q.den = 2 then toString (q.num / 2) ++ ".5"
  else toString q.num ++ "/" ++ toString q.den

/-- The leaf serialization `wallet:multiplier:reward` of a miner entry. -/
def minerLeafString (m : BlockMiner) : String :=
  m.wallet ++ ":" ++ ratDisplay m.multiplier ++ ":" ++ toString m.reward

/-- The data a merkle leaf depends on: the `(wallet, multiplier, reward)`
tuple serialized into the leaf (the `hardware` field is not hashed). -/
def minerLeafTuple (m : BlockMiner) : WalletAddress × ℚ × Nat :=
  (m.wallet, m.multiplier, m.reward)

/-- `miners.last().unwrap()` of the duplication step (the list is never
empty at the call site). -/
def lastHash : List (List Nat) → List Nat
  | [] => List.replicate 32 0
  | [a] => a
  | _ :: b :: rest => lastHash (b :: rest)

/-- Duplicate the last leaf when the level has odd length. -/
def padEven (hs : List (List Nat)) : List (List Nat) :=
  if hs.length % 2 = 1 then hs ++ [lastHash hs] else hs

/-- Hash adjacent pairs (`chunks(2)` with concatenated input). -/
def pairAll : List (List Nat) → List (List Nat)
  | a :: b :: rest => sha256 (a ++ b) :: pairAll rest
  | _ => []

/-- The `while hashes.len() > 1` reduction, structured on fuel; the initial
leaf count is always sufficient fuel since every pass at least halves a
list of length ≥ 2. -/
def merkleLoop : Nat → List (List Nat) → List Nat
  | 0, hs => hs.headD (List.replicate 32 0)
  | fuel + 1, hs =>
      if hs.length ≤ 1 then hs.headD (List.replicate 32 0)
      else merkleLoop fuel (pairAll (padEven hs))

/-- `ProofOfAntiquity::calculate_merkle_root`. -/
def calculate_merkle_root (miners : List BlockMiner) : List Nat :=
  if miners.isEmpty then List.replicate 32 0
  else
    let leaves := miners.map (fun m => sha256 (strBytes (minerLeafString m)))
    merkleLoop leaves.length leaves

/-- `ProofOfAntiquity::reset_block`. -/
def reset_block (now : Nat) (st : PoAState) : PoAState :=
  { st with pending_proofs := [], block_start_time := now }

/-- The summed multiplier of the pending proofs of a window. -/
def totalMultipliers (st : PoAState) : ℚ :=
  (st.pending_proofs.map ValidatedProof.multiplier).sum

/-- The truncated reward of one proof: `(BLOCK_REWARD.0 as f64 * share) as
u64` with `share = multiplier / total`. -/
def minerReward (total : ℚ) (p : ValidatedProof) : Nat :=
  (⌊(BLOCK_REWARD.val : ℚ) * (p.multiplier / total)⌋).toNat

/-- The miner entries of the block being sealed: one `BlockMiner` per
pending proof, reward proportional to multiplier and truncated. -/
def blockMiners (st : PoAState) : List BlockMiner :=
  st.pending_proofs.map (fun p =>
    { wallet := p.wallet
      hardware := p.hardware.model
      multiplier := p.multiplier
      reward := minerReward (totalMultipliers st) p })

/-- The block `process_block` seals from a non-empty window: block hash
over `height:previous:total:timestamp`, merkle root over the miners. -/
def sealedBlock (now : Nat) (st : PoAState) (previous_hash : List Nat)
    (height : Nat) : Block :=
  let miners := blockMiners st
  let total_distributed : Nat := (miners.map BlockMiner.reward).sum
  let block_data := toString height ++ ":" ++ hexEncode previous_hash ++
    ":" ++ toString total_distributed ++ ":" ++ toString now
  { height := height
    hash := sha256 (strBytes block_data)
    previous_hash := previous_hash
    timestamp := now
    miners := miners
    total_reward := total_distributed
    merkle_root := calculate_merkle_root miners
    state_root := List.replicate 32 0 }

/-- `ProofOfAntiquity::process_block`: seal the pending window into a block
(or return none on an empty window) and reset the window state. -/
def process_block (now : Nat) (st : PoAState) (previous_hash : List Nat)
    (height : Nat) : Option Block × PoAState :=
  if st.pending_proofs.isEmpty then (none, reset_block now st)
  else (some (sealedBlock now st previous_hash height), reset_block now st)

/-! ## Deep entropy verifier (src/rips/src/deep_entropy.rs) -/

/-- `TimingMeasurement`. -/
structure TimingMeasurement where
  mean : ℚ
  std_dev : ℚ
  min : Nat
  max : Nat
  samples : Nat
deriving DecidableEq, Repr

/-- `CacheMissPenalty`. -/
structure CacheMissPenalty where
  l1_miss : ℚ
  l2_miss : Option ℚ
  memory_latency : ℚ
deriving DecidableEq, Repr

/-- `BranchMisprediction`. -/
structure BranchMisprediction where
  penalty_cycles : ℚ
  accuracy : ℚ
deriving DecidableEq, Repr

/-- `FpuTimings`. -/
structure FpuTimings where
  fadd : ℚ
  fmul : ℚ
  fdiv : ℚ
  fsqrt : Option ℚ
deriving DecidableEq, Repr

/-- `InstructionTimingLayer` (layer 1). -/
structure InstructionTimingLayer where
  instruction_timings : List (String × TimingMeasurement)
  cache_miss_penalty : CacheMissPenalty
  branch_misprediction : BranchMisprediction
  fpu_timings : FpuTimings
deriving DecidableEq, Repr

/-- `AccessPattern`. -/
structure AccessPattern where
  stride_1 : ℚ
  stride_4 : ℚ
  stride_16 : ℚ
  stride_64 : ℚ
  stride_256 : ℚ
  variance : ℚ
deriving DecidableEq, Repr

/-- `RefreshPattern`. -/
structure RefreshPattern where
  interval_us : ℚ
  jitter : ℚ
  detectable : Bool
deriving DecidableEq, Repr

/-- `MemoryPatternLayer` (layer 2). -/
structure MemoryPatternLayer where
  sequential_read : AccessPattern
  random_read : AccessPattern
  write_pattern : AccessPattern
  page_crossing_penalty : ℚ
  bank_conflict : Option ℚ
  refresh_interference : RefreshPattern
deriving DecidableEq, Repr

/-- `BusType`. -/
inductive BusType where
  | ISA
  | EISA
  | VLB
  | PCI
  | AGP
  | PCIe
  | Unknown
deriving DecidableEq, Repr

/-- `f64::MAX`, exactly. -/
def f64Max : ℚ := (2 ^ 53 - 1) * 2 ^ 971

/-- `BusType::expected_io_timing_ns`. -/
def BusType.expected_io_timing_ns : BusType → ℚ × ℚ
  | .ISA => (1000, 2500)
  | .EISA => (500, 1500)
  | .VLB => (100, 500)
  | .PCI => (50, 200)
  | .AGP => (30, 150)
  | .PCIe => (5, 50)
  | .Unknown => (0, f64Max)

/-- `IoTiming`. -/
structure IoTiming where
  port_read_ns : ℚ
  port_write_ns : ℚ
  variance : ℚ
deriving DecidableEq, Repr

/-- `DmaCharacteristics`. -/
structure DmaCharacteristics where
  transfer_rate : ℚ
  setup_latency_us : ℚ
deriving DecidableEq, Repr

/-- `InterruptLatency`. -/
structure InterruptLatency where
  hw_latency_us : ℚ
  sw_latency_us : ℚ
deriving DecidableEq, Repr

/-- `BusTimingLayer` (layer 3). -/
structure BusTimingLayer where
  bus_type : BusType
  io_timing : IoTiming
  dma_characteristics : Option DmaCharacteristics
  interrupt_latency : InterruptLatency
deriving DecidableEq, Repr

/-- `ClockStability`. -/
structure ClockStability where
  mean_frequency_mhz : ℚ
  variance : ℚ
  frequency_changed : Bool
deriving DecidableEq, Repr

/-- `ThermalVariance`. -/
structure ThermalVariance where
  timing_variance : ℚ
  expected_variance : ℚ
deriving DecidableEq, Repr

/-- `PowerStateInfo`. -/
structure PowerStateInfo where
  state_count : Nat
  c_states : List String
  p_states : List String
deriving DecidableEq, Repr

/-- `ThermalEntropyLayer` (layer 4). -/
structure ThermalEntropyLayer where
  clock_stability : ClockStability
  thermal_variance : ThermalVariance
  power_states : PowerStateInfo
deriving DecidableEq, Repr

/-- `HardwareQuirk`. -/
structure HardwareQuirk where
  id : String
  description : String
  cpu_family : Nat
  year_range : Nat × Nat
deriving DecidableEq, Repr

/-- `QuirkTestResult`. -/
structure QuirkTestResult where
  detected : Bool
  confidence : ℚ
  raw_data : List Nat
deriving DecidableEq, Repr

/-- `QuirkEntropyLayer` (layer 5). -/
structure QuirkEntropyLayer where
  detected_quirks : List HardwareQuirk
  quirk_test_results : List (String × QuirkTestResult)
deriving DecidableEq, Repr

/-- `ChallengeResponse`. -/
structure ChallengeResponse where
  challenge_nonce : List Nat
  response : List Nat
  computation_time_us : Nat
  entropy_samples : List Nat
deriving DecidableEq, Repr

/-- `EntropyProof`: the five layers plus challenge response. -/
structure EntropyProof where
  instruction_layer : InstructionTimingLayer
  memory_layer : MemoryPatternLayer
  bus_layer : BusTimingLayer
  thermal_layer : ThermalEntropyLayer
  quirk_layer : QuirkEntropyLayer
  challenge_response : ChallengeResponse
  timestamp : Nat
  signature_hash : List Nat
deriving DecidableEq, Repr

/-- `HardwareProfile`; the timing `HashMap` is an association list. -/
structure HardwareProfile where
  name : String
  cpu_family : Nat
  year_introduced : Nat
  expected_instruction_timing : List (String × (ℚ × ℚ))
  expected_bus_type : BusType
  expected_quirks : List String
  emulation_difficulty : ℚ
deriving DecidableEq, Repr

/-- `EntropyThresholds`. -/
structure EntropyThresholds where
  min_instruction_entropy : ℚ
  min_memory_entropy : ℚ
  min_bus_entropy : ℚ
  min_thermal_entropy : ℚ
  min_quirk_entropy : ℚ
  total_min_entropy : ℚ
deriving DecidableEq, Repr

/-- `EntropyThresholds::default` (0.15, 0.10, 0.15, 0.05, 0.20, 0.65). -/
def EntropyThresholds.default : EntropyThresholds :=
  { min_instruction_entropy := 3/20
    min_memory_entropy := 1/10
    min_bus_entropy := 3/20
    min_thermal_entropy := 1/20
    min_quirk_entropy := 1/5
    total_min_entropy := 13/20 }

/-- `EntropyScores`, with the all-zero `Default` the source derives. -/
structure EntropyScores where
  instruction : ℚ
  memory : ℚ
  bus : ℚ
  thermal : ℚ
  quirks : ℚ
  total : ℚ
deriving DecidableEq, Repr

/-- `EntropyScores::default()`. -/
def EntropyScores.default : EntropyScores :=
  { instruction := 0, memory := 0, bus := 0, thermal := 0, quirks := 0,
    total := 0 }

/-- `VerificationResult`.  The issue strings of the source interpolate the
offending scores with a `.2` format; the interpolated numeric suffix is
elided here, the constant message prefixes are kept. -/
structure VerificationResult where
  valid : Bool
  total_score : ℚ
  scores : EntropyScores
  issues : List String
  emulation_probability : ℚ
deriving DecidableEq, Repr

/-- `DeepEntropyVerifier`.  The `challenge_rng` field is omitted: it is
used only by `generate_challenge`, which `verify` never reads. -/
structure DeepEntropyVerifier where
  hardware_profiles : List (String × HardwareProfile)
  thresholds : EntropyThresholds
deriving DecidableEq, Repr

/-- The Intel 486 DX2-66 profile installed by `initialize_profiles`. -/
def profile486 : HardwareProfile :=
  { name := "Intel 486 DX2-66"
    cpu_family := 4
    year_introduced := 1992
    expected_instruction_timing :=
      [("mul", (13, 42)), ("div", (40, 44)), ("fadd", (8, 20)),
       ("fmul", (16, 27))]
    expected_bus_type := .ISA
    expected_quirks := ["no_rdtsc", "a20_gate"]
    emulation_difficulty := 19/20 }

/-- The Intel Pentium 100 profile installed by `initialize_profiles`. -/
def profilePentium : HardwareProfile :=
  { name := "Intel Pentium 100"
    cpu_family := 5
    year_introduced := 1994
    expected_instruction_timing :=
      [("mul", (10, 11)), ("div", (17, 41)), ("fadd", (3, 3)),
       ("fmul", (3, 3))]
    expected_bus_type := .PCI
    expected_quirks := ["fdiv_bug"]
    emulation_difficulty := 9/10 }

/-- The PowerPC G4 profile installed by `initialize_profiles`. -/
def profileG4 : HardwareProfile :=
  { name := "PowerPC G4"
    cpu_family := 74
    year_introduced := 1999
    expected_instruction_timing :=
      [("mul", (3, 4)), ("div", (20, 35)), ("fadd", (5, 5)),
       ("fmul", (5, 5))]
    expected_bus_type := .PCI
    expected_quirks := ["altivec", "big_endian"]
    emulation_difficulty := 17/20 }

/-- `DeepEntropyVerifier::new`, with the three profiles inline. -/
def DeepEntropyVerifier.new : DeepEntropyVerifier :=
  { hardware_profiles :=
      [("486DX2", profile486), ("Pentium", profilePentium),
       ("G4", profileG4)]
    thresholds := EntropyThresholds.default }

/-- The loop body of `verify_instruction_layer`: accumulate (score, checks)
over the profile timing table; 0.5 for a mean inside the expected range,
0.5 for a positive standard deviation below half the mean. -/
def instrStep (timings : List (String × TimingMeasurement))
    (sc : ℚ × Nat) (e : String × ℚ × ℚ) : ℚ × Nat :=
  match assocLookup timings e.1 with
  | some measured =>
      let s1 : ℚ :=
        if e.2.1 ≤ measured.mean ∧ measured.mean ≤ e.2.2 then sc.1 + 1/2
        else sc.1
      let s2 : ℚ :=
        if 0 < measured.std_dev ∧
           measured.std_dev < measured.mean * (1/2) then s1 + 1/2
        else s1
      (s2, sc.2 + 1)
  | none => sc

/-- The final division of `verify_instruction_layer`: average the score
over the checked instructions, 0 when none were checkable. -/
def instrScoreOf (acc : ℚ × Nat) : ℚ :=
  if 0 < acc.2 then acc.1 / (acc.2 : ℚ) else 0

/-- `DeepEntropyVerifier::verify_instruction_layer`. -/
def verify_instruction_layer (layer : InstructionTimingLayer)
    (profile : HardwareProfile) : ℚ :=
  instrScoreOf (profile.expected_instruction_timing.foldl
    (instrStep layer.instruction_timings) (0, 0))

/-- `DeepEntropyVerifier::verify_memory_layer`. -/
def verify_memory_layer (layer : MemoryPatternLayer)
    (_profile : HardwareProfile) : ℚ :=
  let s1 : ℚ :=
    if (3/2 : ℚ) <
        layer.sequential_read.stride_64 / layer.sequential_read.stride_1
    then 3/10 else 0
  let s2 : ℚ :=
    if (10 : ℚ) < layer.page_crossing_penalty then s1 + 3/10 else s1
  if layer.refresh_interference.detectable then s2 + 2/5 else s2

/-- `DeepEntropyVerifier::verify_bus_layer`. -/
def verify_bus_layer (layer : BusTimingLayer)
    (profile : HardwareProfile) : ℚ :=
  let s1 : ℚ := if layer.bus_type = profile.expected_bus_type then 1/2 else 0
  let r := profile.expected_bus_type.expected_io_timing_ns
  let s2 : ℚ :=
    if r.1 ≤ layer.io_timing.port_read_ns ∧
       layer.io_timing.port_read_ns ≤ r.2 then s1 + 3/10 else s1
  if (1 : ℚ) < layer.interrupt_latency.hw_latency_us then s2 + 1/5 else s2

/-- `DeepEntropyVerifier::verify_thermal_layer`. -/
def verify_thermal_layer (layer : ThermalEntropyLayer)
    (_profile : HardwareProfile) : ℚ :=
  let s1 : ℚ := if layer.clock_stability.frequency_changed = false then 2/5
                else 0
  let s2 : ℚ := if layer.power_states.c_states.isEmpty then s1 + 3/10 else s1
  if layer.power_states.p_states.isEmpty then s2 + 3/10 else s2

/-- `DeepEntropyVerifier::verify_quirk_layer`. -/
def verify_quirk_layer (layer : QuirkEntropyLayer)
    (profile : HardwareProfile) : ℚ :=
  let n := profile.expected_quirks.length
  if n = 0 then 1
  else profile.expected_quirks.foldl (fun (sc : ℚ) q =>
    match assocLookup layer.quirk_test_results q with
    | some result =>
        if result.detected = true ∧ (4/5 : ℚ) < result.confidence then
          sc + 1 / (n : ℚ)
        else sc
    | none => sc) 0

/-- `DeepEntropyVerifier::verify`: profile lookup (failing closed on an
unknown claim), the five layer scores with their floor diagnostics, the
weighted total, validity and emulation probability. -/
def DeepEntropyVerifier.verify (v : DeepEntropyVerifier)
    (proof : EntropyProof) (claimed_hardware : String) : VerificationResult :=
  match assocLookup v.hardware_profiles claimed_hardware with
  | none =>
      { valid := false
        total_score := 0
        scores := EntropyScores.default
        issues := ["Unknown hardware profile"]
        emulation_probability := 1 }
  | some profile =>
      let si := verify_instruction_layer proof.instruction_layer profile
      let issues1 : List String :=
        if si < v.thresholds.min_instruction_entropy then
          ["Instruction timing entropy too low"] else []
      let sm := verify_memory_layer proof.memory_layer profile
      let issues2 : List String :=
        if sm < v.thresholds.min_memory_entropy then
          ["Memory pattern entropy too low"] else []
      let sb := verify_bus_layer proof.bus_layer profile
      let issues3 : List String :=
        if sb < v.thresholds.min_bus_entropy then
          ["Bus timing entropy too low"] else []
      let sth := verify_thermal_layer proof.thermal_layer profile
      let issues4 : List String :=
        if sth < v.thresholds.min_thermal_entropy then
          ["Thermal entropy suspicious"] else []
      let sq := verify_quirk_layer proof.quirk_layer profile
      let issues5 : List String :=
        if sq < v.thresholds.min_quirk_entropy then
          ["Expected hardware quirks not detected"] else []
      let issues := issues1 ++ issues2 ++ issues3 ++ issues4 ++ issues5
      let total := si * (1/4) + sm * (1/5) + sb * (1/5) + sth * (3/20) +
        sq * (1/5)
      let emulation_prob := 1 - total * profile.emulation_difficulty
      { valid := decide (v.thresholds.total_min_entropy ≤ total) &&
          issues.isEmpty
        total_score := total
        scores := { instruction := si, memory := sm, bus := sb,
                    thermal := sth, quirks := sq, total := total }
        issues := issues
        emulation_probability := max emulation_prob 0 }

/-- Both checks of `verify_instruction_layer` fail for a profile timing
entry: the measured mean is outside the expected range and the jitter test
fails too (entries the proof does not report are vacuously failing, they
contribute no score). -/
def timingFails (timings : List (String × TimingMeasurement))
    (e : String × ℚ × ℚ) : Bool :=
  match assocLookup timings e.1 with
  | some m =>
      (!(decide (e.2.1 ≤ m.mean ∧ m.mean ≤ e.2.2))) &&
      (!(decide (0 < m.std_dev ∧ m.std_dev < m.mean * (1/2))))
  | none => true

/-! ## Concrete scenario values used by the theorems below -/

/-- A 32-byte all-zero hash value. -/
def zero32 : List Nat := List.replicate 32 0

/-- A placeholder block for total projections out of `Option Block`. -/
def emptyBlock : Block :=
  { height := 0
    hash := zero32
    previous_hash := zero32
    timestamp := 0
    miners := []
    total_reward := 0
    merkle_root := zero32
    state_root := zero32 }

/-- An arbitrary, fully valid mining proof (age 22, Vintage tier). -/
def sampleProof : MiningProof :=
  { wallet := "RTCS"
    hardware := HardwareInfo.new ("PowerPC G4") ("G4") 22
    anti_emulation_hash := zero32
    timestamp := 0
    nonce := 7 }

/-- Window state of the C1 witness: two validated proofs with multipliers
2.5 and 3.5 pending. -/
def c1p1 : ValidatedProof :=
  { wallet := "RTCA"
    hardware := HardwareInfo.new ("PowerPC G4") ("G4") 22
    multiplier := 5/2
    anti_emulation_hash := zero32
    validated_at := 0 }

def c1p2 : ValidatedProof :=
  { wallet := "RTCB"
    hardware := HardwareInfo.new ("486DX2") ("486") 35
    multiplier := 7/2
    anti_emulation_hash := zero32
    validated_at := 0 }

def c1St : PoAState :=
  { pending_proofs := [c1p1, c1p2]
    block_start_time := 0
    known_hardware := []
    anti_emulation := AntiEmulationVerifier.new }

/-- The block the C1 witness state seals. -/
def c1Block : Block := ((process_block 5 c1St zero32 1).1).getD emptyBlock

/-- The two miners of the C2 scenario: age 22 (Vintage, 2.5) and age 35
(Ancient, 3.5). -/
def c2p1 : MiningProof :=
  { wallet := "RTCA"
    hardware := HardwareInfo.new ("PowerPC G4") ("G4") 22
    anti_emulation_hash := zero32
    timestamp := 0
    nonce := 1 }

def c2p2 : MiningProof :=
  { wallet := "RTCB"
    hardware := HardwareInfo.new ("486DX2") ("486") 35
    anti_emulation_hash := zero32
    timestamp := 0
    nonce := 2 }

/-- The C2 scenario run end to end: an empty window at time 0, the two
submissions inside the window, then sealing at time 20; the observation is
the per-miner `(wallet, multiplier, reward)` list and the total reward. -/
def c2Pipeline : Option (List (WalletAddress × ℚ × Nat) × Nat) :=
  match submit_proof 0 (PoAState.new 0) c2p1 with
  | .error _ => none
  | .ok (_, st1) =>
    match submit_proof 10 st1 c2p2 with
    | .error _ => none
    | .ok (_, st2) =>
      match (process_block 20 st2 zero32 1).1 with
      | none => none
      | some b => some (b.miners.map minerLeafTuple, b.total_reward)

/-- First submission of the C3 witness. -/
def c3p1 : MiningProof :=
  { wallet := "RTCD"
    hardware := HardwareInfo.new ("Amiga 500") ("A500") 35
    anti_emulation_hash := zero32
    timestamp := 0
    nonce := 1 }

/-- Second submission of the C3 witness: same wallet, different hardware. -/
def c3p2 : MiningProof :=
  { wallet := "RTCD"
    hardware := HardwareInfo.new ("ThinkPad T42") ("T42") 17
    anti_emulation_hash := zero32
    timestamp := 0
    nonce := 2 }

/-- Fallback submit result for total projections. -/
def emptySubmit : SubmitResult :=
  { accepted := false, pending_miners := 0, your_multiplier := 0,
    block_completes_in := 0 }

/-- The accepted outcome of the first C3 submission. -/
def c3ok : SubmitResult × PoAState :=
  (submit_proof 0 (PoAState.new 0) c3p1).toOption.getD
    (emptySubmit, PoAState.new 0)

/-- Hardware of the C5 witness, fingerprint-bound to wallet `RTCA`. -/
def c5hw : HardwareInfo := HardwareInfo.new ("Macintosh SE") ("68K") 35

/-- C5 witness state: no pending proofs, stale window, and the lifetime
fingerprint registry binding `c5hw` to wallet `RTCA`. -/
def c5st : PoAState :=
  { pending_proofs := []
    block_start_time := 0
    known_hardware := [(hash_hardware c5hw, "RTCA")]
    anti_emulation := AntiEmulationVerifier.new }

/-- A C5 proof for the same hardware fingerprint from a different wallet. -/
def c5p : MiningProof :=
  { wallet := "RTCB"
    hardware := c5hw
    anti_emulation_hash := zero32
    timestamp := 0
    nonce := 9 }

/-- C9 counterexample miners: equal `(wallet, multiplier, reward)` leaf
tuples, distinct `hardware` labels (the leaf does not hash `hardware`). -/
def cm1 : BlockMiner :=
  { wallet := "RTCX", hardware := "PowerPC G4", multiplier := 5/2,
    reward := 10 }

def cm2 : BlockMiner :=
  { wallet := "RTCX", hardware := "486DX2", multiplier := 5/2, reward := 10 }

/-- C9 amended-claim miners with distinct leaf tuples. -/
def dm1 : BlockMiner :=
  { wallet := "RTCP", hardware := "CPU1", multiplier := 2, reward := 1 }

def dm2 : BlockMiner :=
  { wallet := "RTCQ", hardware := "CPU2", multiplier := 3, reward := 2 }

/-- C9 witness miners: same leaf tuple, different hardware labels. -/
def wm1 : BlockMiner :=
  { wallet := "RTCW", hardware := "G3", multiplier := 1, reward := 5 }

def wm2 : BlockMiner :=
  { wallet := "RTCW", hardware := "G5", multiplier := 1, reward := 5 }

/-- A memory layer scoring the full 1.0. -/
def goodMemoryLayer : MemoryPatternLayer :=
  { sequential_read :=
      { stride_1 := 100, stride_4 := 150, stride_16 := 250, stride_64 := 400,
        stride_256 := 500, variance := 5 }
    random_read :=
      { stride_1 := 80, stride_4 := 90, stride_16 := 110, stride_64 := 150,
        stride_256 := 200, variance := 8 }
    write_pattern :=
      { stride_1 := 90, stride_4 := 100, stride_16 := 120, stride_64 := 160,
        stride_256 := 210, variance := 6 }
    page_crossing_penalty := 20
    bank_conflict := none
    refresh_interference :=
      { interval_us := 15, jitter := 2, detectable := true } }

/-- A bus layer scoring the full 1.0 against the 486 profile (ISA bus). -/
def goodBusLayer : BusTimingLayer :=
  { bus_type := .ISA
    io_timing := { port_read_ns := 1500, port_write_ns := 1600, variance := 50 }
    dma_characteristics := none
    interrupt_latency := { hw_latency_us := 5, sw_latency_us := 2 } }

/-- A thermal layer scoring the full 1.0 (no DVFS, no power states). -/
def goodThermalLayer : ThermalEntropyLayer :=
  { clock_stability :=
      { mean_frequency_mhz := 66, variance := 0, frequency_changed := false }
    thermal_variance := { timing_variance := 1, expected_variance := 1 }
    power_states := { state_count := 0, c_states := [], p_states := [] } }

/-- A quirk layer scoring the full 1.0 against the 486 profile. -/
def goodQuirkLayer : QuirkEntropyLayer :=
  { detected_quirks := []
    quirk_test_results :=
      [("no_rdtsc", { detected := true, confidence := 9/10, raw_data := [] }),
       ("a20_gate", { detected := true, confidence := 9/10, raw_data := [] })] }

/-- Shared fixed challenge-response record. -/
def sampleChallenge : ChallengeResponse :=
  { challenge_nonce := zero32
    response := zero32
    computation_time_us := 5000
    entropy_samples := [] }

/-- Placeholder fpu/cache/branch records for instruction layers. -/
def sampleFpu : FpuTimings := { fadd := 10, fmul := 20, fdiv := 70, fsqrt := none }

def sampleCacheMiss : CacheMissPenalty :=
  { l1_miss := 10, l2_miss := none, memory_latency := 120 }

def sampleBranch : BranchMisprediction := { penalty_cycles := 4, accuracy := 3/4 }

/-- C8 counterexample proof: the only reported instruction timing is a
`mul` measurement entirely outside the expected (13,42) range of the
486DX2 profile (mean 100, observed 95 to 105), but with realistic jitter;
every other layer is fully convincing. -/
def ce8 : EntropyProof :=
  { instruction_layer :=
      { instruction_timings :=
          [("mul", { mean := 100, std_dev := 1, min := 95, max := 105,
                     samples := 50 })]
        cache_miss_penalty := sampleCacheMiss
        branch_misprediction := sampleBranch
        fpu_timings := sampleFpu }
    memory_layer := goodMemoryLayer
    bus_layer := goodBusLayer
    thermal_layer := goodThermalLayer
    quirk_layer := goodQuirkLayer
    challenge_response := sampleChallenge
    timestamp := 0
    signature_hash := zero32 }

/-- C8 witness proof: a single reported `mul` timing outside the expected
range whose jitter check also fails (zero standard deviation). -/
def w8proof : EntropyProof :=
  { instruction_layer :=
      { instruction_timings :=
          [("mul", { mean := 100, std_dev := 0, min := 100, max := 100,
                     samples := 50 })]
        cache_miss_penalty := sampleCacheMiss
        branch_misprediction := sampleBranch
        fpu_timings := sampleFpu }
    memory_layer := goodMemoryLayer
    bus_layer := goodBusLayer
    thermal_layer := goodThermalLayer
    quirk_layer := goodQuirkLayer
    challenge_response := sampleChallenge
    timestamp := 0
    signature_hash := zero32 }

/-! ## Theorems -/

/-- Helper: the multiplier of the tier assigned by `from_age` increases by
single-year steps. -/
theorem from_age_mult_le_succ (a : Nat) :
    (HardwareTier.from_age a).multiplier ≤
      (HardwareTier.from_age (a + 1)).multiplier := by
  by_cases h : a < 31
  · revert h
    have hb : ∀ x, x < 31 → (HardwareTier.from_age x).multiplier ≤
        (HardwareTier.from_age (x + 1)).multiplier := by decide
    exact hb a
  · have h30 : 30 ≤ a := by omega
    have e1 : HardwareTier.from_age a = .Ancient := by
      unfold HardwareTier.from_age
      rw [if_pos h30]
    have e2 : HardwareTier.from_age (a + 1) = .Ancient := by
      unfold HardwareTier.from_age
      rw [if_pos (by omega : 30 ≤ a + 1)]
    rw [e1, e2]

/-- C6: `HardwareTier.from_age` realizes exactly the seven half-open age
bins, which partition the naturals with every boundary resolving to the
older tier, and the assigned multiplier is monotone in age. -/
theorem tier_bins_partition_and_monotone :
    (∀ a : Nat,
      (HardwareTier.from_age a = .Ancient ↔ 30 ≤ a) ∧
      (HardwareTier.from_age a = .Sacred ↔ 25 ≤ a ∧ a < 30) ∧
      (HardwareTier.from_age a = .Vintage ↔ 20 ≤ a ∧ a < 25) ∧
      (HardwareTier.from_age a = .Classic ↔ 15 ≤ a ∧ a < 20) ∧
      (HardwareTier.from_age a = .Retro ↔ 10 ≤ a ∧ a < 15) ∧
      (HardwareTier.from_age a = .Modern ↔ 5 ≤ a ∧ a < 10) ∧
      (HardwareTier.from_age a = .Recent ↔ a < 5)) ∧
    (∀ a b : Nat, a ≤ b →
      (HardwareTier.from_age a).multiplier ≤
        (HardwareTier.from_age b).multiplier) := by
  constructor
  · intro a
    unfold HardwareTier.from_age
    split_ifs <;> simp_all <;> omega
  · intro a b hab
    exact monotone_nat_of_le_succ from_age_mult_le_succ hab

/-- C6 witness: concrete monotonicity instance via the theorem. -/
theorem tier_bins_partition_and_monotone_witness :
    (HardwareTier.from_age 12).multiplier ≤
      (HardwareTier.from_age 27).multiplier :=
  tier_bins_partition_and_monotone.2 12 27 (by decide)

/-- C4: whenever at least 120 seconds have elapsed since the window start,
`submit_proof` rejects any proof with `BlockWindowClosed`. -/
theorem submit_proof_window_closed (now : Nat) (st : PoAState)
    (p : MiningProof) (h : 120 ≤ now - st.block_start_time) :
    submit_proof now st p = .error .BlockWindowClosed := by
  unfold submit_proof
  rw [if_pos h]

/-- C4 witness: a fully valid proof 121 seconds after window start. -/
theorem submit_proof_window_closed_witness :
    120 ≤ 121 - (PoAState.new 0).block_start_time ∧
    submit_proof 121 (PoAState.new 0) sampleProof =
      .error .BlockWindowClosed :=
  ⟨by decide, submit_proof_window_closed 121 (PoAState.new 0) sampleProof
    (by decide)⟩

set_option maxRecDepth 100000 in
/-- C2: the concrete two-miner scenario.  Ages 22 and 35 classify as
Vintage (2.5) and Ancient (3.5); submitting both in one window and sealing
the block yields rewards 41666666 and 58333333 and a 99999999 total. -/
theorem concrete_two_miner_rewards :
    c2p1.hardware.tier = .Vintage ∧ c2p1.hardware.multiplier = 5/2 ∧
    c2p2.hardware.tier = .Ancient ∧ c2p2.hardware.multiplier = 7/2 ∧
    c2Pipeline =
      some ([("RTCA", (5 : ℚ)/2, 41666666), ("RTCB", (7 : ℚ)/2, 58333333)],
        99999999) := by
  refine ⟨by decide, by decide, by decide, by decide, by decide⟩

/-- C10: with the verifier built by `AntiEmulationVerifier::new` the
timing-baseline table is empty, so the only possible outcomes of `verify`
are acceptance or `SuspiciousHardware`; `EmulationDetected` is
unreachable. -/
theorem anti_emulation_never_detects_emulation (c : HardwareCharacteristics) :
    AntiEmulationVerifier.new.verify c = .ok () ∨
    ∃ msg, AntiEmulationVerifier.new.verify c =
      .error (.SuspiciousHardware msg) := by
  have hany : c.instruction_timings.any (fun it =>
      match assocLookup AntiEmulationVerifier.new.timing_baselines it.1 with
      | some b => decide (it.2 < b.min_cycles ∨ b.max_cycles < it.2)
      | none => false) = false := by
    induction c.instruction_timings with
    | nil => rfl
    | cons x t ih => rw [List.any_cons, ih]; rfl
  unfold AntiEmulationVerifier.verify
  cases hsig : assocLookup AntiEmulationVerifier.new.cpu_signatures
      c.cpu_family with
  | none =>
      left
      simp only [hany, Bool.false_eq_true, if_false]
  | some s =>
      by_cases h1 : c.cache_sizes.l1_data < s.cache_ranges.l1_min ∨
          s.cache_ranges.l1_max < c.cache_sizes.l1_data
      · right
        exact ⟨"L1 cache size mismatch", by simp only [h1, if_true]⟩
      · by_cases h2 : (s.expected_flags.all
            (fun f => c.cpu_flags.contains f)) = true
        · left
          simp only [h1, if_false, h2, not_true, if_false, hany,
            Bool.false_eq_true]
        · right
          refine ⟨"Missing expected CPU flags", ?_⟩
          simp only [h1, if_false, h2, not_false_iff, if_true,
            Bool.false_eq_true]

/-- C7: an unknown claimed hardware id makes the deep entropy verifier
fail closed: no error, `valid = false`, zero score, the explanatory issue,
and emulation probability 1. -/
theorem deep_verify_unknown_hardware_fails_closed (proof : EntropyProof)
    (claimed : String)
    (h : assocLookup DeepEntropyVerifier.new.hardware_profiles claimed =
      none) :
    DeepEntropyVerifier.new.verify proof claimed =
      { valid := false
        total_score := 0
        scores := EntropyScores.default
        issues := ["Unknown hardware profile"]
        emulation_probability := 1 } := by
  unfold DeepEntropyVerifier.verify
  rw [h]

/-- C7 witness: the claim id `ZX81` is not in the registry. -/
theorem deep_verify_unknown_hardware_fails_closed_witness :
    DeepEntropyVerifier.new.verify ce8 ("ZX81") =
      { valid := false
        total_score := 0
        scores := EntropyScores.default
        issues := ["Unknown hardware profile"]
        emulation_probability := 1 } :=
  deep_verify_unknown_hardware_fails_closed ce8 ("ZX81") (by decide)

/-- Helper: `instrScoreOf` of a zero score is zero. -/
theorem instrScoreOf_zero (acc : ℚ × Nat) (h : acc.1 = 0) :
    instrScoreOf acc = 0 := by
  unfold instrScoreOf
  rw [h]
  split
  · exact zero_div _
  · rfl

/-- Helper: when both instruction checks fail for every profile entry, the
score accumulator of `verify_instruction_layer` stays at zero. -/
theorem instr_foldl_zero (timings : List (String × TimingMeasurement))
    (table : List (String × ℚ × ℚ))
    (h : ∀ e ∈ table, timingFails timings e = true) :
    ∀ k : Nat, (table.foldl (instrStep timings) (0, k)).1 = 0 := by
  induction table with
  | nil => intro k; rfl
  | cons e t ih =>
      intro k
      have he := h e (List.mem_cons_self e t)
      have ht : ∀ x ∈ t, timingFails timings x = true :=
        fun x hx => h x (List.mem_cons_of_mem e hx)
      rw [List.foldl_cons]
      unfold timingFails at he
      unfold instrStep
      cases hl : assocLookup timings e.1 with
      | none => exact ih ht k
      | some m =>
          rw [hl] at he
          rw [Bool.and_eq_true] at he
          obtain ⟨h1, h2⟩ := he
          rw [Bool.not_eq_true', decide_eq_false_iff_not] at h1 h2
          simp only [if_neg h1, if_neg h2]
          exact ih ht (k + 1)

/-- C8 (amended): if every instruction timing the proof reports for an
entry of the 486DX2 profile table has its mean outside the expected range
and also fails the jitter check, the instruction layer scores 0, which
breaches the 0.15 floor, and the verification is invalid regardless of the
other four layers. -/
theorem deep_verify_486_bad_timings_amended (proof : EntropyProof)
    (h : ∀ e ∈ profile486.expected_instruction_timing,
         timingFails proof.instruction_layer.instruction_timings e = true) :
    verify_instruction_layer proof.instruction_layer profile486 = 0 ∧
    (DeepEntropyVerifier.new.verify proof ("486DX2")).valid = false := by
  have hzero :
      verify_instruction_layer proof.instruction_layer profile486 = 0 := by
    unfold verify_instruction_layer
    exact instrScoreOf_zero _ (instr_foldl_zero
      proof.instruction_layer.instruction_timings
      profile486.expected_instruction_timing h 0)
  refine ⟨hzero, ?_⟩
  have hlook : assocLookup DeepEntropyVerifier.new.hardware_profiles
      ("486DX2") = some profile486 := rfl
  unfold DeepEntropyVerifier.verify
  rw [hlook]
  simp only [hzero, DeepEntropyVerifier.new, EntropyThresholds.default]
  norm_num

set_option maxRecDepth 100000 in
/-- C8 counterexample: `ce8` claims 486DX2 hardware and reports its only
instruction timing (a `mul` measurement) entirely outside the profile
range (13, 42), yet the instruction layer scores 1/2 (not 0, since the
jitter half-check passes) and the overall verification is `valid = true`
because every other layer is convincing — refuting the claim as stated. -/
theorem deep_verify_486_bad_timings_counterexample :
    verify_instruction_layer ce8.instruction_layer profile486 ≠ 0 ∧
    (DeepEntropyVerifier.new.verify ce8 ("486DX2")).valid = true := by
  refine ⟨by decide, by decide⟩

/-- C8 witness: a proof whose sole reported timing fails both checks makes
the amended theorem concrete. -/
theorem deep_verify_486_bad_timings_amended_witness :
    verify_instruction_layer w8proof.instruction_layer profile486 = 0 ∧
    (DeepEntropyVerifier.new.verify w8proof ("486DX2")).valid = false :=
  deep_verify_486_bad_timings_amended w8proof (by decide)

set_option maxRecDepth 100000 in
/-- C9 counterexample: `cm1` and `cm2` are distinct miners (different
`hardware` labels) whose `(wallet, multiplier, reward)` leaf tuples agree;
swapping them is a genuine reordering of a two-element list, yet the
merkle root is unchanged, because the leaf hashes only the tuple —
refuting the claim that permuting the miner list changes the root. -/
theorem merkle_root_perm_counterexample :
    cm1 ≠ cm2 ∧ [cm1, cm2] ≠ [cm2, cm1] ∧
    calculate_merkle_root [cm1, cm2] = calculate_merkle_root [cm2, cm1] := by
  refine ⟨by decide, by decide, by decide⟩

set_option maxRecDepth 100000 in
/-- C9 (amended): the merkle root is a deterministic function of the
ordered sequence of `(wallet, multiplier, reward)` leaf tuples (so equal
tuple sequences give equal roots, an odd level duplicates its last leaf,
and the empty list yields the all-zero root), and permuting miners with
distinct leaf tuples can change the root, witnessed concretely. -/
theorem merkle_root_amended :
    (∀ ms1 ms2 : List BlockMiner,
      ms1.map minerLeafTuple = ms2.map minerLeafTuple →
      calculate_merkle_root ms1 = calculate_merkle_root ms2) ∧
    calculate_merkle_root [] = List.replicate 32 0 ∧
    (∀ a b c : BlockMiner,
      calculate_merkle_root [a, b, c] = calculate_merkle_root [a, b, c, c]) ∧
    calculate_merkle_root [dm1, dm2] ≠ calculate_merkle_root [dm2, dm1] := by
  refine ⟨?_, rfl, ?_, by decide⟩
  · intro ms1 ms2 h
    have hleaf : ∀ ms : List BlockMiner,
        ms.map (fun m => sha256 (strBytes (minerLeafString m))) =
        (ms.map minerLeafTuple).map
          (fun t => sha256 (strBytes
            (t.1 ++ ":" ++ ratDisplay t.2.1 ++ ":" ++ toString t.2.2))) := by
      intro ms
      rw [List.map_map]
      rfl
    cases ms1 with
    | nil =>
        cases ms2 with
        | nil => rfl
        | cons y t2 => simp at h
    | cons x t1 =>
        cases ms2 with
        | nil => simp at h
        | cons y t2 =>
            unfold calculate_merkle_root
            simp only [List.isEmpty_cons]
            have e : (x :: t1).map
                (fun m => sha256 (strBytes (minerLeafString m))) =
                (y :: t2).map
                  (fun m => sha256 (strBytes (minerLeafString m))) := by
              rw [hleaf, hleaf, h]
            rw [e]
  · intro a b c
    simp [calculate_merkle_root, merkleLoop, padEven, pairAll, lastHash]

/-- C9 witness: two singleton lists with equal leaf tuples but different
hardware labels share the root, via the amended theorem. -/
theorem merkle_root_amended_witness :
    calculate_merkle_root [wm1] = calculate_merkle_root [wm2] :=
  merkle_root_amended.1 [wm1] [wm2] (by decide)

/-- Helper: a successful `submit_proof` appends exactly one validated
proof carrying the submitting wallet and keeps the window start. -/
theorem submit_proof_ok_state (now : Nat) (st : PoAState) (p : MiningProof)
    (r : SubmitResult) (st' : PoAState)
    (h : submit_proof now st p = .ok (r, st')) :
    st'.pending_proofs = st.pending_proofs ++
      [{ wallet := p.wallet
         hardware := p.hardware
         multiplier := min p.hardware.multiplier (7/2 : ℚ)
         anti_emulation_hash := p.anti_emulation_hash
         validated_at := now }] ∧
    st'.block_start_time = st.block_start_time := by
  unfold submit_proof at h
  repeat' split at h
  all_goals try (simp at h)
  all_goals
    (simp only [ite_eq_iff] at h
     simp at h)
  all_goals
    (obtain ⟨-, h⟩ := h
     split at h)
  all_goals try (simp at h)
  all_goals
    (obtain ⟨hr, hst⟩ := h
     subst hst
     exact ⟨rfl, rfl⟩)


/-- C3: once a wallet's proof has been accepted in the current window, a
second proof carrying the same wallet is rejected with
`DuplicateSubmission` while the window is open, whatever its hardware. -/
theorem submit_proof_duplicate_wallet_rejected
    (now1 now2 : Nat) (st : PoAState) (p1 p2 : MiningProof)
    (r : SubmitResult) (st' : PoAState)
    (hok : submit_proof now1 st p1 = .ok (r, st'))
    (hw : p2.wallet = p1.wallet)
    (hwin : now2 - st'.block_start_time < 120) :
    submit_proof now2 st' p2 = .error .DuplicateSubmission := by
  obtain ⟨hpend, -⟩ := submit_proof_ok_state now1 st p1 r st' hok
  have hdup : (st'.pending_proofs.any fun q => q.wallet == p2.wallet) =
      true := by
    rw [hpend]
    simp [hw]
  unfold submit_proof
  rw [if_neg (by omega : ¬ 120 ≤ now2 - st'.block_start_time), if_pos hdup]

/-- C3 witness: the concrete same-wallet pair; the first submission is
accepted, the second rejected. -/
theorem submit_proof_duplicate_wallet_rejected_witness :
    submit_proof 5 c3ok.2 c3p2 = .error .DuplicateSubmission :=
  submit_proof_duplicate_wallet_rejected 0 5 (PoAState.new 0) c3p1 c3p2
    c3ok.1 c3ok.2 rfl rfl (by decide)

/-- Helper: sealing or resetting a window never touches the lifetime
hardware registry; the second component of `process_block` is always the
reset state. -/
theorem process_block_snd (now : Nat) (st : PoAState)
    (previous_hash : List Nat) (height : Nat) :
    (process_block now st previous_hash height).2 = reset_block now st := by
  unfold process_block
  split <;> rfl

/-- C5: the fingerprint-to-wallet binding survives `process_block`: in the
window that follows a seal or reset, an otherwise valid proof whose
hardware fingerprint is bound to a different wallet is rejected with
`HardwareAlreadyRegistered`. -/
theorem hardware_binding_survives_block_seal
    (now0 now1 height : Nat) (previous_hash : List Nat) (st : PoAState)
    (p : MiningProof) (wA : WalletAddress)
    (hbind : assocLookup st.known_hardware (hash_hardware p.hardware) =
      some wA)
    (hdiff : wA ≠ p.wallet)
    (hwin : now1 -
      (process_block now0 st previous_hash height).2.block_start_time < 120)
    (hvalid : validate_hardware p.hardware = .ok ())
    (hanti : (match p.hardware.characteristics with
              | some chars => st.anti_emulation.verify chars
              | none => .ok ()) = .ok ()) :
    (process_block now0 st previous_hash height).2.known_hardware =
      st.known_hardware ∧
    submit_proof now1 (process_block now0 st previous_hash height).2 p =
      .error (.HardwareAlreadyRegistered wA) := by
  rw [process_block_snd] at hwin ⊢
  refine ⟨rfl, ?_⟩
  unfold submit_proof
  rw [if_neg (by omega : ¬ 120 ≤ now1 -
    (reset_block now0 st).block_start_time)]
  simp only [reset_block, List.any_nil, Bool.false_eq_true, if_false,
    List.length_nil, hvalid, hanti, hbind]
  rw [if_neg (by decide : ¬ MAX_MINERS_PER_BLOCK ≤ 0),
      if_neg (show ¬ (wA == p.wallet) = true from by simp [hdiff])]

/-- C5 witness: hardware fingerprint bound to wallet `RTCA` before a seal
at time 200; at time 250 (inside the fresh window) wallet `RTCB` submits
the same fingerprint and is rejected. -/
theorem hardware_binding_survives_block_seal_witness :
    (process_block 200 c5st zero32 1).2.known_hardware =
      c5st.known_hardware ∧
    submit_proof 250 (process_block 200 c5st zero32 1).2 c5p =
      .error (.HardwareAlreadyRegistered ("RTCA")) :=
  hardware_binding_survives_block_seal 200 250 1 zero32 c5st c5p ("RTCA")
    (by decide) (by decide) (by decide) (by decide) (by decide)

/-- Helper: the cast of `toNat` of a non-negative floor is the floor. -/
theorem floor_toNat_cast {q : ℚ} (h : 0 ≤ q) :
    ((⌊q⌋.toNat : ℕ) : ℚ) = ((⌊q⌋ : ℤ) : ℚ) := by
  have h2 : ((⌊q⌋.toNat : ℕ) : ℤ) = ⌊q⌋ :=
    Int.toNat_of_nonneg (Int.floor_nonneg.mpr h)
  exact_mod_cast congrArg (fun z : ℤ => (z : ℚ)) h2

/-- Helper: the summed truncated values are at most the summed values. -/
theorem floorSum_le {α : Type} (l : List α) (g : α → ℚ)
    (hg : ∀ a ∈ l, 0 ≤ g a) :
    (((l.map fun a => (⌊g a⌋).toNat).sum : ℕ) : ℚ) ≤ (l.map g).sum := by
  induction l with
  | nil => simp
  | cons x t ih =>
      have hx : 0 ≤ g x := hg x (List.mem_cons_self x t)
      have ht : ∀ a ∈ t, 0 ≤ g a :=
        fun a ha => hg a (List.mem_cons_of_mem x ha)
      simp only [List.map_cons, List.sum_cons, Nat.cast_add]
      have h1 : ((⌊g x⌋.toNat : ℕ) : ℚ) ≤ g x := by
        rw [floor_toNat_cast hx]
        exact Int.floor_le (g x)
      exact add_le_add h1 (ih ht)

/-- Helper: truncation loses less than one unit per element. -/
theorem sum_le_floorSum_add_length {α : Type} (l : List α) (g : α → ℚ) :
    (l.map g).sum ≤
      (((l.map fun a => (⌊g a⌋).toNat).sum : ℕ) : ℚ) + l.length := by
  induction l with
  | nil => simp
  | cons x t ih =>
      simp only [List.map_cons, List.sum_cons, Nat.cast_add,
        List.length_cons]
      have h1 : g x < ((⌊g x⌋ : ℤ) : ℚ) + 1 := Int.lt_floor_add_one (g x)
      have h2 : ((⌊g x⌋ : ℤ) : ℚ) ≤ ((⌊g x⌋.toNat : ℕ) : ℚ) := by
        exact_mod_cast Int.self_le_toNat ⌊g x⌋
      push_cast
      push_cast at ih
      linarith

/-- Helper: the truncated sum equals the exact sum exactly when every
summand is an integer. -/
theorem floorSum_eq_iff {α : Type} (l : List α) (g : α → ℚ)
    (hg : ∀ a ∈ l, 0 ≤ g a) :
    ((((l.map fun a => (⌊g a⌋).toNat).sum : ℕ) : ℚ) = (l.map g).sum) ↔
      ∀ a ∈ l, ((⌊g a⌋ : ℤ) : ℚ) = g a := by
  induction l with
  | nil => simp
  | cons x t ih =>
      have hx : 0 ≤ g x := hg x (List.mem_cons_self x t)
      have ht : ∀ a ∈ t, 0 ≤ g a :=
        fun a ha => hg a (List.mem_cons_of_mem x ha)
      simp only [List.map_cons, List.sum_cons, Nat.cast_add,
        List.mem_cons]
      constructor
      · intro h
        have h1 : ((⌊g x⌋.toNat : ℕ) : ℚ) ≤ g x := by
          rw [floor_toNat_cast hx]
          exact Int.floor_le (g x)
        have h2 := floorSum_le t g ht
        have e1 : ((⌊g x⌋.toNat : ℕ) : ℚ) = g x := by linarith
        have e2 : (((t.map fun a => (⌊g a⌋).toNat).sum : ℕ) : ℚ) =
            (t.map g).sum := by linarith
        intro a ha
        rcases ha with rfl | ha
        · rw [← floor_toNat_cast hx]
          exact e1
        · exact (ih ht).mp e2 a ha
      · intro h
        have hxx : ((⌊g x⌋ : ℤ) : ℚ) = g x := h x (Or.inl rfl)
        have htt := (ih ht).mpr (fun a ha => h a (Or.inr ha))
        rw [floor_toNat_cast hx, hxx, htt]

/-- Helper: scalar multiplication distributes over the multiplier sum. -/
theorem sum_map_mul_multiplier (l : List ValidatedProof) (c : ℚ) :
    (l.map fun p => c * p.multiplier).sum =
      c * (l.map ValidatedProof.multiplier).sum := by
  induction l with
  | nil => simp
  | cons x t ih => simp [ih, mul_add]

/-- Helper: the proportional shares of a window sum to the full reward. -/
theorem sum_shares (l : List ValidatedProof) (c T : ℚ)
    (hT : (l.map ValidatedProof.multiplier).sum = T) (h0 : T ≠ 0) :
    (l.map fun p => c * (p.multiplier / T)).sum = c := by
  subst hT
  have hfun : (fun p : ValidatedProof =>
      c * (p.multiplier / (l.map ValidatedProof.multiplier).sum)) =
      fun p => (c / (l.map ValidatedProof.multiplier).sum) * p.multiplier := by
    funext p
    ring
  rw [hfun, sum_map_mul_multiplier, div_mul_cancel₀ c h0]

/-- Helper: a non-empty window of positive multipliers has a positive
multiplier total. -/
theorem totalMultipliers_pos (st : PoAState) (hne : st.pending_proofs ≠ [])
    (hpos : ∀ p ∈ st.pending_proofs, 0 < p.multiplier) :
    0 < totalMultipliers st := by
  unfold totalMultipliers
  apply List.sum_pos
  · intro x hx
    obtain ⟨p, hp, rfl⟩ := List.mem_map.mp hx
    exact hpos p hp
  · simp only [ne_eq, List.map_eq_nil_iff]
    exact hne

/-- C1: every block sealed from a non-empty window distributes at most
`BLOCK_REWARD` in total; the total is exactly `BLOCK_REWARD` precisely
when every proportional share is an integer; and the truncation shortfall
is at most one unit per miner. -/
theorem process_block_reward_conservation
    (now : Nat) (st : PoAState) (previous_hash : List Nat) (height : Nat)
    (b : Block)
    (hne : st.pending_proofs ≠ [])
    (hpos : ∀ p ∈ st.pending_proofs, 0 < p.multiplier)
    (hb : (process_block now st previous_hash height).1 = some b) :
    (b.miners.map BlockMiner.reward).sum ≤ BLOCK_REWARD.val ∧
    ((b.miners.map BlockMiner.reward).sum = BLOCK_REWARD.val ↔
      ∀ p ∈ st.pending_proofs,
        ((⌊(BLOCK_REWARD.val : ℚ) *
            (p.multiplier / totalMultipliers st)⌋ : ℤ) : ℚ) =
          (BLOCK_REWARD.val : ℚ) * (p.multiplier / totalMultipliers st)) ∧
    BLOCK_REWARD.val - (b.miners.map BlockMiner.reward).sum ≤
      b.miners.length := by
  have hT : 0 < totalMultipliers st := totalMultipliers_pos st hne hpos
  obtain rfl : b = sealedBlock now st previous_hash height := by
    unfold process_block at hb
    rw [if_neg (by simp only [List.isEmpty_iff]; exact hne)] at hb
    exact (Option.some.inj hb).symm
  have hminers : (sealedBlock now st previous_hash height).miners =
      blockMiners st := rfl
  rw [hminers]
  have hrew : (blockMiners st).map BlockMiner.reward =
      st.pending_proofs.map (fun p =>
        (⌊(BLOCK_REWARD.val : ℚ) *
          (p.multiplier / totalMultipliers st)⌋).toNat) := by
    unfold blockMiners
    rw [List.map_map]
    rfl
  have hlen : (blockMiners st).length = st.pending_proofs.length := by
    unfold blockMiners
    rw [List.length_map]
  have hg0 : ∀ p ∈ st.pending_proofs,
      0 ≤ (BLOCK_REWARD.val : ℚ) * (p.multiplier / totalMultipliers st) :=
    fun p hp => mul_nonneg (Nat.cast_nonneg _)
      (le_of_lt (div_pos (hpos p hp) hT))
  have hsum : (st.pending_proofs.map (fun p => (BLOCK_REWARD.val : ℚ) *
      (p.multiplier / totalMultipliers st))).sum =
      (BLOCK_REWARD.val : ℚ) :=
    sum_shares st.pending_proofs _ _ rfl (ne_of_gt hT)
  refine ⟨?_, ?_, ?_⟩
  · have hA := floorSum_le st.pending_proofs
      (fun p => (BLOCK_REWARD.val : ℚ) *
        (p.multiplier / totalMultipliers st)) hg0
    rw [hsum] at hA
    rw [hrew]
    exact_mod_cast hA
  · have hC := floorSum_eq_iff st.pending_proofs
      (fun p => (BLOCK_REWARD.val : ℚ) *
        (p.multiplier / totalMultipliers st)) hg0
    rw [hsum] at hC
    rw [hrew]
    constructor
    · intro h
      exact hC.mp (by exact_mod_cast congrArg (fun n : ℕ => (n : ℚ)) h)
    · intro h
      exact_mod_cast hC.mpr h
  · have hB := sum_le_floorSum_add_length st.pending_proofs
      (fun p => (BLOCK_REWARD.val : ℚ) *
        (p.multiplier / totalMultipliers st))
    rw [hsum] at hB
    rw [hrew, hlen]
    have hN : BLOCK_REWARD.val ≤
        (st.pending_proofs.map (fun p =>
          (⌊(BLOCK_REWARD.val : ℚ) *
            (p.multiplier / totalMultipliers st)⌋).toNat)).sum +
        st.pending_proofs.length := by
      exact_mod_cast hB
    omega

/-- C1 witness: the two-miner window distributes 41666666 + 58333333 =
99999999 of the 100000000 reward. -/
theorem process_block_reward_conservation_witness :
    (c1Block.miners.map BlockMiner.reward).sum ≤ BLOCK_REWARD.val ∧
    BLOCK_REWARD.val - (c1Block.miners.map BlockMiner.reward).sum ≤
      c1Block.miners.length :=
  have h := process_block_reward_conservation 5 c1St zero32 1 c1Block
    (by decide) (by decide) rfl
  ⟨h.1, h.2.2⟩
